import Mathlib

/-!
Shallow embedding of `DragonNetworkTester.py` (repository
DV64/DragonNetworkTester) and proofs about its behaviour.

Python integers are modelled as `Int` (or `Nat` for counters that only
grow), Python floats as `ℚ`, Python lists as `List`, and fallible
operations (`raise`) as `Except String`.  Randomness is modelled by an
explicit byte oracle passed as a function argument.
-/

namespace Dragon

/-- Embeds the `NetworkStats` dataclass (source lines 45-59).  Field order
follows the source; `start_time` is set by `__post_init__` from the clock,
modelled as an explicit parameter of `NetworkStats.init`. -/
structure NetworkStats where
  packets_sent : Nat
  bytes_sent : Nat
  failed_attempts : Nat
  successful_attempts : Nat
  start_time : ℚ
  response_times : List ℚ
  packet_sizes : List Nat
deriving Repr, DecidableEq

/-- Embeds `__post_init__`: counters default to 0, the sample lists start
empty, `start_time` is the current clock value `t0`. -/
def NetworkStats.init (t0 : ℚ) : NetworkStats :=
  { packets_sent := 0
    bytes_sent := 0
    failed_attempts := 0
    successful_attempts := 0
    start_time := t0
    response_times := []
    packet_sizes := [] }

/-- Embeds the `success_rate` property (source lines 61-64):
`(packets_sent / total * 100) if total > 0 else 0.0` where
`total = packets_sent + failed_attempts`. -/
def success_rate (s : NetworkStats) : ℚ :=
  let total := s.packets_sent + s.failed_attempts
  if total > 0 then (s.packets_sent : ℚ) / (total : ℚ) * 100 else 0

/-- Embeds the `average_response` property (source lines 66-69):
`statistics.mean(response_times) if response_times else 0.0`. -/
def average_response (s : NetworkStats) : ℚ :=
  if s.response_times = [] then 0
  else s.response_times.sum / (s.response_times.length : ℚ)

/-- Embeds `validate_input` (source lines 138-146).  `not ip` is true in
Python exactly on the empty string (the `isinstance` check is type-level
and vacuous in the embedding).  A raised `ValueError` is an `.error`. -/
def validate_input (ip : String) (port : Int) (duration : Int) :
    Except String Unit :=
  if ip = "" then .error "Invalid IP address"
  else if ¬(0 ≤ port ∧ port ≤ 65535) then
    .error "Port must be between 0 and 65535"
  else if duration ≤ 0 then .error "Duration must be positive"
  else .ok ()

/-- The configuration state built by `__init__` (source lines 103-136):
the clamped worker and packet-size parameters together with the target
and flags. -/
structure Tester where
  target_ip : String
  target_port : Int
  duration : Int
  thread_count : Int
  packet_size : Int
  buffer_size : Int
  verbose : Bool
deriving Repr, DecidableEq

/-- Embeds `DragonNetworkTester.__init__` (source lines 103-136):
`validate_input` runs first (line 112); only if it passes are
`thread_count` clamped by `min(thread_count, 500)` (line 116),
`packet_size` clamped by `min(packet_size, 65507)` (line 117), and the
sockets created by `_setup_sockets` (line 135), one per thread.  The
second component is the number of sockets allocated by the time
`__init__` returns or raises: 0 when validation raises, since
`_setup_sockets` runs only after validation. -/
def testerInit (ip : String) (port duration thread_count packet_size
    buffer_size : Int) (verbose : Bool) : Except String Tester × Nat :=
  match validate_input ip port duration with
  | .error e => (.error e, 0)
  | .ok () =>
    let tc := min thread_count 500
    let ps := min packet_size 65507
    (.ok { target_ip := ip
           target_port := port
           duration := duration
           thread_count := tc
           packet_size := ps
           buffer_size := buffer_size
           verbose := verbose }, tc.toNat)

/-- Embeds `_generate_packet` (source lines 195-201).  The 24-byte header
is random bytes (`random.randint(0, 255)` for 24 positions), the payload
is `random._urandom(self.packet_size - 24)` — which, like `os.urandom`,
raises `ValueError` for a negative length.  Randomness is modelled by the
oracle `randByte`; only the lengths matter to the claims. -/
def generate_packet (randByte : Nat → Nat) (packet_size : Int) :
    Except String (List Nat) :=
  let header := (List.range 24).map (fun i => randByte i % 256)
  if packet_size - 24 < 0 then .error "negative argument not allowed"
  else
    let payload := (List.range (packet_size - 24).toNat).map
      (fun i => randByte (24 + i) % 256)
    .ok (header ++ payload)

/-- Embeds one iteration of the `while` body of `_send_packets` (source
lines 207-232), acting on the stats record and the error log.
`_generate_packet` runs inside the `try`; any exception from it or from
`sock.sendto` (modelled by `sendOk = false`) reaches the `except` block,
which increments `failed_attempts` and logs the error only when
`self.verbose` is set.  On success the four success-path fields are
updated with the packet's length and the measured `response_time`. -/
def send_iteration (verbose : Bool) (packet_size : Int)
    (randByte : Nat → Nat) (sendOk : Bool) (response_time : ℚ)
    (s : NetworkStats) (log : List String) : NetworkStats × List String :=
  match generate_packet randByte packet_size with
  | .error e =>
    ({ s with failed_attempts := s.failed_attempts + 1 },
     log ++ (if verbose then [e] else []))
  | .ok packet =>
    if sendOk then
      ({ s with
          packets_sent := s.packets_sent + 1
          bytes_sent := s.bytes_sent + packet.length
          response_times := s.response_times ++ [response_time]
          packet_sizes := s.packet_sizes ++ [packet.length] }, log)
    else
      ({ s with failed_attempts := s.failed_attempts + 1 },
       log ++ (if verbose then ["send error"] else []))

/-- Embeds the `while not self.stop_event.is_set()` loop of
`_send_packets` (source lines 207-232).  `outcomes` lists, for each
iteration executed before the stop flag was observed set, whether the
send succeeded and the measured response time; the loop performs exactly
one `send_iteration` per element and exits only when the list is
exhausted (the stop signal). -/
def send_packets (verbose : Bool) (packet_size : Int)
    (randByte : Nat → Nat) : List (Bool × ℚ) →
    NetworkStats × List String → NetworkStats × List String
  | [], st => st
  | (sendOk, rt) :: rest, (s, log) =>
    send_packets verbose packet_size randByte rest
      (send_iteration verbose packet_size randByte sendOk rt s log)

/-- Embeds the success-percentage metric of `_display_final_report`
(source line 284): `(1 - failed_attempts / packets_sent) * 100`, a
`ZeroDivisionError` when `packets_sent == 0`. -/
def report_success_percentage (s : NetworkStats) : Except String ℚ :=
  if s.packets_sent = 0 then .error "ZeroDivisionError"
  else .ok ((1 - (s.failed_attempts : ℚ) / (s.packets_sent : ℚ)) * 100)

/-- Embeds `_display_final_report` (source lines 266-291) as the list of
(metric, value) rows of the report table, or the exception that aborts
it.  `packets_per_second` (line 271) divides by `total_time` and the
Success Rate row (line 284) divides by `packets_sent`; each raises
`ZeroDivisionError` when its denominator is zero. -/
def display_final_report (total_time : ℚ) (s : NetworkStats) :
    Except String (List (String × ℚ)) :=
  if total_time = 0 then .error "ZeroDivisionError"
  else
    let packets_per_second := (s.packets_sent : ℚ) / total_time
    let mb_sent := (s.bytes_sent : ℚ) / 1024 / 1024
    match report_success_percentage s with
    | .error e => .error e
    | .ok pct =>
      .ok [("Total Time", total_time),
           ("Total Packets", (s.packets_sent : ℚ)),
           ("Total Data", mb_sent),
           ("Packet Rate", packets_per_second),
           ("Failed Attempts", (s.failed_attempts : ℚ)),
           ("Success Rate", pct),
           ("Avg Response", average_response s * 1000)]

/-- The externally observable teardown-relevant actions of `main` and
`start` (source lines 234-264 and 398-426). -/
inductive MainAction where
  | displayReport
  | cleanupSockets
  | printInterrupted
  | printFatal
  | exitCode (n : Nat)
deriving Repr, DecidableEq

/-- How a `tester.start()` call inside `main`'s `try` block ends. -/
inductive RunResult where
  | completed
  | keyboardInterrupt
  | otherError
deriving Repr, DecidableEq

/-- Embeds the dispatch of `main` (source lines 398-426) around
`tester.start()` (source lines 234-264).  On normal completion, `start`
runs `_display_final_report()` then `_cleanup()` (lines 263-264) and
`main` returns.  A `KeyboardInterrupt` raised during `start` skips the
rest of `start` and lands in the handler at line 421, which prints a
message and calls `sys.exit(0)`; any other exception lands in the
handler at line 424, which prints the error and calls `sys.exit(1)`.
Neither handler invokes `_display_final_report` or `_cleanup`. -/
def main_trace (r : RunResult) : List MainAction :=
  match r with
  | .completed => [.displayReport, .cleanupSockets]
  | .keyboardInterrupt => [.printInterrupted, .exitCode 0]
  | .otherError => [.printFatal, .exitCode 1]

/-- One worker's view of a single `self.stats.<counter> += 1` update in
the interleaving model of the counter updates at source lines 215-219
and 228-229.  `pending = some v` means the worker has read the shared
counter (value `v`) but not yet written back; `remaining` counts the
updates the worker has not yet begun. -/
structure WorkerState where
  pending : Option Nat
  remaining : Nat
deriving Repr, DecidableEq

/-- One micro-step of a worker.  Because `with threading.Lock():`
constructs a fresh lock object per update (source lines 215 and 228),
each worker acquires a lock no other worker touches: the lock excludes
nothing, and the read and the write-back of `counter += 1` are separate
steps that other workers' steps may interleave. -/
def microStep (counter : Nat) (w : WorkerState) : Nat × WorkerState :=
  match w.pending with
  | some v => (v + 1, { pending := none, remaining := w.remaining })
  | none =>
    if w.remaining = 0 then (counter, w)
    else (counter, { pending := some counter, remaining := w.remaining - 1 })

/-- Runs a schedule over the shared counter and the worker list: each
schedule entry names the worker that performs the next micro-step. -/
def runSched (sched : List Nat) (counter : Nat) (ws : List WorkerState) :
    Nat × List WorkerState :=
  match sched with
  | [] => (counter, ws)
  | i :: rest =>
    match ws[i]? with
    | none => runSched rest counter ws
    | some w =>
      let cw := microStep counter w
      runSched rest cw.1 (ws.set i cw.2)

/-- The intended semantics the spec demands (one shared long-lived lock,
so each `+= 1` is a single atomic step): each scheduled worker with work
remaining increments the counter in one step.  `ws` holds each worker's
remaining update count. -/
def atomicRun (sched : List Nat) (counter : Nat) (ws : List Nat) :
    Nat × List Nat :=
  match sched with
  | [] => (counter, ws)
  | i :: rest =>
    match ws[i]? with
    | none => atomicRun rest counter ws
    | some r =>
      if r = 0 then atomicRun rest counter ws
      else atomicRun rest (counter + 1) (ws.set i (r - 1))

/-! Helper lemmas shared by the claim proofs. -/

/-- For sizes of at least the 24-byte header, `_generate_packet` succeeds
and returns the header concatenated with the payload. -/
lemma generate_packet_ok (randByte : Nat → Nat) (size : Int)
    (h : 24 ≤ size) :
    generate_packet randByte size =
      .ok ((List.range 24).map (fun i => randByte i % 256) ++
        (List.range (size - 24).toNat).map (fun i => randByte (24 + i) % 256)) := by
  have hlt : ¬(size - 24 < 0) := by omega
  simp [generate_packet, hlt]

/-- For sizes below the 24-byte header, `_generate_packet` raises: the
payload length passed to `random._urandom` is negative. -/
lemma generate_packet_neg (randByte : Nat → Nat) (size : Int)
    (h : size < 24) :
    generate_packet randByte size = .error "negative argument not allowed" := by
  have hlt : size - 24 < 0 := by omega
  simp [generate_packet, hlt]

/-- Setting one entry of a list of naturals changes its sum by the
difference of new and old entry. -/
lemma list_sum_set : ∀ (ws : List Nat) (i r x : Nat), ws[i]? = some r →
    (ws.set i x).sum + r = ws.sum + x := by
  intro ws
  induction ws with
  | nil => intro i r x h; simp at h
  | cons a t ih =>
    intro i r x h
    cases i with
    | zero =>
      simp at h
      simp [List.set, h]
      omega
    | succ n =>
      simp at h
      have := ih n r x h
      simp [List.set]
      omega

/-- With one shared, long-lived lock each counter update is a single
atomic step, and no update is lost: the counter plus the total
outstanding work is invariant under every schedule.  This is the
semantics the specification demands of the aggregator. -/
theorem atomicRun_conservation : ∀ (sched : List Nat) (c : Nat)
    (ws : List Nat),
    (atomicRun sched c ws).1 + (atomicRun sched c ws).2.sum = c + ws.sum := by
  intro sched
  induction sched with
  | nil => intro c ws; simp [atomicRun]
  | cons i rest ih =>
    intro c ws
    unfold atomicRun
    cases h : ws[i]? with
    | none => simpa using ih c ws
    | some r =>
      cases r with
      | zero => simpa using ih c ws
      | succ k =>
        simp
        have hsum := list_sum_set ws i (k + 1) k h
        have := ih (c + 1) (ws.set i k)
        omega

/-- Claim C1: the claim asserts that `packets_sent + failed_attempts`
ends at exactly W*T under every interleaving because the updates are
guarded by `with threading.Lock():`.  The guard constructs a fresh lock
per update (source lines 215, 228), so it excludes nothing; the
read-increment-write of `+= 1` can interleave.  Evaluating the model at
W = 2 workers, T = 1 update each, under the schedule
read(0), read(1), write(0), write(1): both workers complete their update
(no pending read, no remaining work) yet the shared counter ends at 1,
not W*T = 2 — a lost update. -/
theorem fresh_lock_loses_update :
    runSched [0, 1, 0, 1] 0
        [{ pending := none, remaining := 1 },
         { pending := none, remaining := 1 }] =
      (1, [{ pending := none, remaining := 0 },
           { pending := none, remaining := 0 }]) ∧
    (1 : Nat) ≠ 2 * 1 := by
  decide

/-- Claim C2: the claim asserts that when every send fails
(`packets_sent = 0`, `failed_attempts = W * iterations`) the run still
completes and produces the final report, with `success_rate = 0.0`.
The `success_rate` part holds, but `_display_final_report` computes
`(1 - failed_attempts/packets_sent)*100` (source line 284), dividing by
`packets_sent = 0`: the report raises `ZeroDivisionError` instead of
being produced.  Evaluated here at `failed_attempts = 8`. -/
theorem report_crashes_when_all_fail :
    display_final_report 2
        { packets_sent := 0, bytes_sent := 0, failed_attempts := 8,
          successful_attempts := 0, start_time := 0,
          response_times := [], packet_sizes := [] } =
      .error "ZeroDivisionError" ∧
    success_rate
        { packets_sent := 0, bytes_sent := 0, failed_attempts := 8,
          successful_attempts := 0, start_time := 0,
          response_times := [], packet_sizes := [] } = 0 := by
  refine ⟨?_, ?_⟩
  · simp [display_final_report, report_success_percentage]
  · simp [success_rate]

/-- Claim C3, counterexample: the claim asserts that a worker count of 0
is rejected with a fatal configuration error.  Constructing the tester
with `thread_count = 0` (and otherwise valid arguments) succeeds:
`validate_input` never inspects `thread_count`, and the clamp
`min(0, 500) = 0` keeps it, allocating zero sockets. -/
theorem workers_zero_accepted :
    (testerInit "127.0.0.1" 80 5 0 1024 65507 false).1 =
      .ok { target_ip := "127.0.0.1", target_port := 80, duration := 5,
            thread_count := 0, packet_size := 1024, buffer_size := 65507,
            verbose := false } := by
  rfl

/-- Claim C3 as amended: a duration of 0 (or any non-positive duration)
fails fast with `ValueError("Duration must be positive")` raised by
`validate_input` before `_setup_sockets` runs — zero sockets are
allocated; a worker count of 0, however, is never rejected: with a
positive duration the constructor succeeds. -/
theorem duration_zero_fails_fast (ip : String) (port tc ps bs : Int)
    (v : Bool) (hip : ip ≠ "") (hlo : 0 ≤ port) (hhi : port ≤ 65535) :
    (testerInit ip port 0 tc ps bs v).1 = .error "Duration must be positive" ∧
    (testerInit ip port 0 tc ps bs v).2 = 0 ∧
    ∀ d : Int, 0 < d → ((testerInit ip port d 0 ps bs v).1).isOk = true := by
  have hv : validate_input ip port 0 = .error "Duration must be positive" := by
    simp [validate_input, hip, hlo, hhi]
  refine ⟨?_, ?_, ?_⟩
  · simp [testerInit, hv]
  · simp [testerInit, hv]
  · intro d hd
    have hv' : validate_input ip port d = .ok () := by
      have hdle : ¬(d ≤ 0) := by omega
      simp [validate_input, hip, hlo, hhi, hdle]
    simp [testerInit, hv', Except.isOk, Except.toBool]

/-- Witness for `duration_zero_fails_fast` at concrete arguments. -/
theorem duration_zero_fails_fast_witness :
    (testerInit "10.0.0.1" 80 0 10 1024 65507 false).1 =
      .error "Duration must be positive" :=
  (duration_zero_fails_fast "10.0.0.1" 80 10 1024 65507 false
    (by decide) (by decide) (by decide)).1

/-- Claim C4: for every configuration that passes validation, the worker
count used internally is `min(requested, 500)` and the packet size used
is `min(requested, 65507)` (source lines 116-117): out-of-range values
are clamped, never rejected. -/
theorem clamping_thread_count_packet_size (ip : String)
    (port d tc ps bs : Int) (v : Bool) (t : Tester)
    (h : (testerInit ip port d tc ps bs v).1 = .ok t) :
    t.thread_count = min tc 500 ∧ t.packet_size = min ps 65507 := by
  unfold testerInit at h
  cases hv : validate_input ip port d with
  | error e => rw [hv] at h; simp at h
  | ok u =>
    rw [hv] at h
    simp at h
    subst h
    exact ⟨rfl, rfl⟩

/-- Witness for `clamping_thread_count_packet_size`: requesting 1000
workers and 100000-byte packets yields 500 and 65507. -/
theorem clamping_witness :
    (Tester.mk "10.0.0.1" 80 5 500 65507 65507 true).thread_count =
      min 1000 500 ∧
    (Tester.mk "10.0.0.1" 80 5 500 65507 65507 true).packet_size =
      min 100000 65507 :=
  clamping_thread_count_packet_size "10.0.0.1" 80 5 1000 100000 65507 true
    (Tester.mk "10.0.0.1" 80 5 500 65507 65507 true) (by rfl)

/-- Claim C5: for every configured size of at least the 24-byte header,
`_generate_packet` returns exactly `size` bytes — a 24-byte header
followed by a payload of `size - 24` random bytes. -/
theorem packet_length_exact (randByte : Nat → Nat) (size : Int)
    (h : 24 ≤ size) :
    ∃ header payload : List Nat,
      generate_packet randByte size = .ok (header ++ payload) ∧
      header.length = 24 ∧ payload.length = (size - 24).toNat ∧
      (header ++ payload).length = size.toNat := by
  refine ⟨_, _, generate_packet_ok randByte size h, ?_, ?_, ?_⟩
  · simp
  · simp
  · simp
    omega

/-- Witness for `packet_length_exact` at size 1024. -/
theorem packet_length_exact_witness :
    (24 : Int) ≤ 1024 ∧
    ∃ header payload : List Nat,
      generate_packet (fun _ => 0) 1024 = .ok (header ++ payload) ∧
      header.length = 24 ∧ payload.length = ((1024 : Int) - 24).toNat ∧
      (header ++ payload).length = (1024 : Int).toNat :=
  ⟨by decide, packet_length_exact (fun _ => 0) 1024 (by decide)⟩

/-- Claim C6, counterexample: the claim asserts `success_rate` returns 0
exactly when `packets_sent + failed_attempts == 0`.  With no successes
and one failure the total is 1, yet `success_rate` is `0/1*100 = 0`. -/
theorem success_rate_zero_with_failures :
    success_rate
        { packets_sent := 0, bytes_sent := 0, failed_attempts := 1,
          successful_attempts := 0, start_time := 0,
          response_times := [], packet_sizes := [] } = 0 ∧
    ({ packets_sent := 0, bytes_sent := 0, failed_attempts := 1,
       successful_attempts := 0, start_time := 0,
       response_times := [], packet_sizes := [] } : NetworkStats).packets_sent +
      ({ packets_sent := 0, bytes_sent := 0, failed_attempts := 1,
         successful_attempts := 0, start_time := 0,
         response_times := [], packet_sizes := [] } : NetworkStats).failed_attempts ≠ 0 := by
  refine ⟨by simp [success_rate], by simp⟩

/-- Claim C6 as amended: `success_rate` returns 0 exactly when
`packets_sent == 0` (in particular when the total is 0, but also when
every attempt failed); when the total is nonzero it equals
`packets_sent / (packets_sent + failed_attempts) * 100`.
`average_response` returns 0 for an empty sample list and otherwise the
arithmetic mean of the samples.  Both are functions of the stats record,
computed on demand. -/
theorem success_rate_and_average_response (s : NetworkStats) :
    (success_rate s = 0 ↔ s.packets_sent = 0) ∧
    (s.packets_sent + s.failed_attempts ≠ 0 →
      success_rate s =
        (s.packets_sent : ℚ) /
          ((s.packets_sent + s.failed_attempts : Nat) : ℚ) * 100) ∧
    (s.response_times = [] → average_response s = 0) ∧
    (s.response_times ≠ [] →
      average_response s =
        s.response_times.sum / (s.response_times.length : ℚ)) := by
  refine ⟨?_, ?_, ?_, ?_⟩
  · by_cases h : 0 < s.packets_sent + s.failed_attempts
    · have htot : (0 : ℚ) < ((s.packets_sent + s.failed_attempts : Nat) : ℚ) := by
        exact_mod_cast h
      simp only [success_rate, if_pos h]
      constructor
      · intro heq
        by_contra hne
        have hsent : (0 : ℚ) < (s.packets_sent : ℚ) := by
          exact_mod_cast Nat.pos_of_ne_zero hne
        have hpos : (0 : ℚ) <
            (s.packets_sent : ℚ) /
              ((s.packets_sent + s.failed_attempts : Nat) : ℚ) * 100 :=
          mul_pos (div_pos hsent htot) (by norm_num)
        rw [heq] at hpos
        exact lt_irrefl 0 hpos
      · intro h0
        simp [h0]
    · have h0 : s.packets_sent = 0 := by omega
      simp [success_rate, h, h0]
  · intro h
    have h' : 0 < s.packets_sent + s.failed_attempts := Nat.pos_of_ne_zero h
    simp [success_rate, h']
  · intro h
    simp [average_response, h]
  · intro h
    simp [average_response, h]

/-- Witness for `success_rate_and_average_response`: two successes and
two failures give a rate of 50. -/
theorem success_rate_and_average_response_witness :
    success_rate
        { packets_sent := 2, bytes_sent := 0, failed_attempts := 2,
          successful_attempts := 0, start_time := 0,
          response_times := [], packet_sizes := [] } = 50 := by
  have h := (success_rate_and_average_response
    { packets_sent := 2, bytes_sent := 0, failed_attempts := 2,
      successful_attempts := 0, start_time := 0,
      response_times := [], packet_sizes := [] }).2.1 (by decide)
  rw [h]
  norm_num

/-- Claim C7: the claim asserts that an external interruption
(`KeyboardInterrupt`) still executes the full teardown — the final
report and the socket cleanup.  In `main` (source lines 421-423) the
interrupt handler prints a message and calls `sys.exit(0)` directly;
`_display_final_report` and `_cleanup` run only on the normal-completion
path of `start` (source lines 263-264), so an interrupted run performs
neither. -/
theorem interrupt_skips_report_and_cleanup :
    MainAction.displayReport ∉ main_trace RunResult.keyboardInterrupt ∧
    MainAction.cleanupSockets ∉ main_trace RunResult.keyboardInterrupt ∧
    MainAction.exitCode 0 ∈ main_trace RunResult.keyboardInterrupt ∧
    MainAction.displayReport ∈ main_trace RunResult.completed ∧
    MainAction.cleanupSockets ∈ main_trace RunResult.completed := by
  decide

/-- Claim C8: an iteration whose send fails records exactly one failure
(`failed_attempts + 1`, every other stats field untouched), logs exactly
one error when verbose and nothing otherwise, and the loop continues
with the next iteration — only the exhaustion of the pre-stop outcome
list (the stop signal) ends the loop. -/
theorem send_failure_recorded_and_loop_continues (v : Bool) (ps : Int)
    (randByte : Nat → Nat) (rt : ℚ) (s : NetworkStats) (log : List String)
    (outs : List (Bool × ℚ)) :
    (send_iteration v ps randByte false rt s log).1 =
      { s with failed_attempts := s.failed_attempts + 1 } ∧
    (send_iteration true ps randByte false rt s log).2.length =
      log.length + 1 ∧
    (send_iteration false ps randByte false rt s log).2 = log ∧
    send_packets v ps randByte ((false, rt) :: outs) (s, log) =
      send_packets v ps randByte outs
        (send_iteration v ps randByte false rt s log) ∧
    send_packets v ps randByte [] (s, log) = (s, log) := by
  refine ⟨?_, ?_, ?_, rfl, rfl⟩
  · unfold send_iteration
    cases generate_packet randByte ps <;> simp
  · unfold send_iteration
    cases generate_packet randByte ps <;> simp
  · unfold send_iteration
    cases generate_packet randByte ps <;> simp

/-- One `send_iteration` never touches `successful_attempts`. -/
lemma send_iteration_successful_attempts (v : Bool) (ps : Int)
    (randByte : Nat → Nat) (sendOk : Bool) (rt : ℚ) (s : NetworkStats)
    (log : List String) :
    (send_iteration v ps randByte sendOk rt s log).1.successful_attempts =
      s.successful_attempts := by
  unfold send_iteration
  cases generate_packet randByte ps with
  | error e => simp
  | ok p => by_cases h : sendOk <;> simp [h]

/-- The whole send loop never touches `successful_attempts`. -/
lemma send_packets_successful_attempts (v : Bool) (ps : Int)
    (randByte : Nat → Nat) : ∀ (outs : List (Bool × ℚ)) (s : NetworkStats)
    (log : List String),
    (send_packets v ps randByte outs (s, log)).1.successful_attempts =
      s.successful_attempts := by
  intro outs
  induction outs with
  | nil => intro s log; rfl
  | cons o rest ih =>
    intro s log
    obtain ⟨sendOk, rt⟩ := o
    have h2 := ih (send_iteration v ps randByte sendOk rt s log).1
      (send_iteration v ps randByte sendOk rt s log).2
    calc (send_packets v ps randByte ((sendOk, rt) :: rest)
            (s, log)).1.successful_attempts
        = (send_packets v ps randByte rest
            (send_iteration v ps randByte sendOk rt s log)).1.successful_attempts := rfl
      _ = (send_iteration v ps randByte sendOk rt s
            log).1.successful_attempts := by simpa using h2
      _ = s.successful_attempts :=
          send_iteration_successful_attempts v ps randByte sendOk rt s log

/-- Claim C9: `successful_attempts` is never incremented — it stays 0
across any run of the loop from a fresh stats record; the success path
updates exactly `packets_sent`, `bytes_sent`, `response_times` and
`packet_sizes`, the failure path exactly `failed_attempts`; and both
`success_rate` and the report's success-percentage metric are invariant
under changes to `successful_attempts`, reading `packets_sent` in its
place. -/
theorem successful_attempts_never_incremented (v : Bool) (ps : Int)
    (randByte : Nat → Nat) (sendOk : Bool) (rt t0 : ℚ) (s : NetworkStats)
    (log : List String) (outs : List (Bool × ℚ)) (n : Nat)
    (h : 24 ≤ ps) :
    (send_packets v ps randByte outs
        (NetworkStats.init t0, [])).1.successful_attempts = 0 ∧
    (send_iteration v ps randByte sendOk rt s log).1.successful_attempts =
      s.successful_attempts ∧
    send_iteration v ps randByte true rt s log =
      ({ s with
          packets_sent := s.packets_sent + 1
          bytes_sent := s.bytes_sent + ps.toNat
          response_times := s.response_times ++ [rt]
          packet_sizes := s.packet_sizes ++ [ps.toNat] }, log) ∧
    (send_iteration v ps randByte false rt s log).1 =
      { s with failed_attempts := s.failed_attempts + 1 } ∧
    success_rate { s with successful_attempts := n } = success_rate s ∧
    report_success_percentage { s with successful_attempts := n } =
      report_success_percentage s := by
  refine ⟨?_, send_iteration_successful_attempts v ps randByte sendOk rt s log,
    ?_, ?_, rfl, rfl⟩
  · exact send_packets_successful_attempts v ps randByte outs
      (NetworkStats.init t0) []
  · unfold send_iteration
    rw [generate_packet_ok randByte ps h]
    have hlen : ((List.range 24).map (fun i => randByte i % 256) ++
        (List.range (ps - 24).toNat).map
          (fun i => randByte (24 + i) % 256)).length = ps.toNat := by
      simp
      omega
    simp [hlen]
  · unfold send_iteration
    rw [generate_packet_ok randByte ps h]
    simp

/-- Witness for `successful_attempts_never_incremented` on a two-outcome
run at packet size 1024. -/
theorem successful_attempts_witness :
    (send_packets false 1024 (fun _ => 0) [(true, 1), (false, 2)]
      (NetworkStats.init 0, [])).1.successful_attempts = 0 :=
  (successful_attempts_never_incremented false 1024 (fun _ => 0) true 1 0
    (NetworkStats.init 0) [] [(true, 1), (false, 2)] 5 (by decide)).1

/-- With a packet size below the header length, every iteration of the
send loop takes the failure branch: sent counters never move and
`failed_attempts` counts the iterations. -/
lemma send_packets_all_fail (v : Bool) (ps : Int) (randByte : Nat → Nat)
    (h : ps < 24) : ∀ (outs : List (Bool × ℚ)) (s : NetworkStats)
    (log : List String),
    (send_packets v ps randByte outs (s, log)).1.packets_sent =
      s.packets_sent ∧
    (send_packets v ps randByte outs (s, log)).1.bytes_sent =
      s.bytes_sent ∧
    (send_packets v ps randByte outs (s, log)).1.failed_attempts =
      s.failed_attempts + outs.length := by
  intro outs
  induction outs with
  | nil => intro s log; exact ⟨rfl, rfl, by simp [send_packets]⟩
  | cons o rest ih =>
    intro s log
    obtain ⟨sendOk, rt⟩ := o
    have hstep : send_iteration v ps randByte sendOk rt s log =
        ({ s with failed_attempts := s.failed_attempts + 1 },
         log ++ (if v then ["negative argument not allowed"] else [])) := by
      unfold send_iteration
      rw [generate_packet_neg randByte ps h]
    have hrw : send_packets v ps randByte ((sendOk, rt) :: rest) (s, log) =
        send_packets v ps randByte rest
          (send_iteration v ps randByte sendOk rt s log) := rfl
    rw [hrw, hstep]
    obtain ⟨h1, h2, h3⟩ := ih { s with failed_attempts := s.failed_attempts + 1 }
      (log ++ (if v then ["negative argument not allowed"] else []))
    refine ⟨by simpa using h1, by simpa using h2, ?_⟩
    simp only [h3]
    simp
    omega

/-- Claim C10: a packet size below the 24-byte header is accepted by the
constructor (`validate_input` ignores it and the clamp only bounds it
above), but then every `_generate_packet` call raises on the negative
`_urandom` length, so every worker iteration takes the failure branch:
`packets_sent` and `bytes_sent` stay 0 while `failed_attempts` counts
every iteration — nothing is ever sent. -/
theorem small_packet_size_all_iterations_fail (ip : String)
    (port d tc bs ps : Int) (v : Bool) (randByte : Nat → Nat) (t0 : ℚ)
    (outs : List (Bool × ℚ)) (hip : ip ≠ "") (hlo : 0 ≤ port)
    (hhi : port ≤ 65535) (hd : 0 < d) (h24 : ps < 24) :
    (testerInit ip port d tc ps bs v).1 =
      .ok { target_ip := ip, target_port := port, duration := d,
            thread_count := min tc 500, packet_size := ps,
            buffer_size := bs, verbose := v } ∧
    (send_packets v ps randByte outs
        (NetworkStats.init t0, [])).1.packets_sent = 0 ∧
    (send_packets v ps randByte outs
        (NetworkStats.init t0, [])).1.bytes_sent = 0 ∧
    (send_packets v ps randByte outs
        (NetworkStats.init t0, [])).1.failed_attempts = outs.length := by
  have hv : validate_input ip port d = .ok () := by
    have hdle : ¬(d ≤ 0) := by omega
    simp [validate_input, hip, hlo, hhi, hdle]
  have hmin : min ps 65507 = ps := by omega
  obtain ⟨h1, h2, h3⟩ :=
    send_packets_all_fail v ps randByte h24 outs (NetworkStats.init t0) []
  refine ⟨by simp [testerInit, hv, hmin], by simpa [NetworkStats.init] using h1,
    by simpa [NetworkStats.init] using h2, by simpa [NetworkStats.init] using h3⟩

/-- Witness for `small_packet_size_all_iterations_fail` at packet size
10 with two attempted iterations. -/
theorem small_packet_size_witness :
    (send_packets false 10 (fun _ => 0) [(true, 1), (false, 2)]
      (NetworkStats.init 0, [])).1.failed_attempts =
      ([(true, 1), (false, 2)] : List (Bool × ℚ)).length :=
  (small_packet_size_all_iterations_fail "127.0.0.1" 80 5 10 65507 10 false
    (fun _ => 0) 0 [(true, 1), (false, 2)] (by decide) (by decide)
    (by decide) (by decide) (by decide)).2.2.2

end Dragon
